import Mathlib

/-!
# Verification of the TalentScout core: DOM mapper and AI-call resilience layer

Shallow embedding of the two core modules of the repository:

* `entrypoints/content/dom_observer.ts` — the DOM semantic-mapping engine
  (visibility filter, forbidden-zone filter, anchor assignment, cleanup).
* `src/lib/gemini.ts` — the AI-call orchestration layer (throttle guard,
  retry/backoff engine, error classification, response normalizer).

DOM nodes are modelled as records of the attributes the source inspects;
the live document is a list of candidate nodes in document order together
with a store of per-node mutable state (the `data-mcp-id` attribute and the
inline `outline`/`position` styles).  JavaScript values coming back from
`JSON.parse` are modelled by the inductive `JVal`, with the JS coercion
operators (`String(·)`, `Number(·)`, `||`, `??`, truthiness) embedded
explicitly.  Thrown JS errors are modelled as values (`JsError`) and the
`try`/`catch`/`finally` control flow as explicit `Except`/state passing.
-/

/- ──────────────────────────────────────────────────────────────
   Shared helper: JS `String.prototype.includes` as used by the
   error-classification predicates in `gemini.ts`.
   ────────────────────────────────────────────────────────────── -/

/-- Is the first char list a prefix of the second? -/
def charListPre : List Char → List Char → Bool
  | [], _ => true
  | _ :: _, [] => false
  | a :: as, b :: bs => a == b && charListPre as bs

/-- Is `needle` a contiguous sublist of the second argument? -/
def charListSub (needle : List Char) : List Char → Bool
  | [] => needle.isEmpty
  | b :: bs => charListPre needle (b :: bs) || charListSub needle bs

/-- JS `hay.includes(needle)`: substring containment on strings. -/
def strIncludes (hay needle : String) : Bool :=
  charListSub needle.toList hay.toList

/- ──────────────────────────────────────────────────────────────
   gemini.ts — configuration constants (lines 11–14)
   ────────────────────────────────────────────────────────────── -/

/-- `const MAX_RETRIES = 3` (gemini.ts line 14). -/
def MAX_RETRIES : Nat := 3

/-- `const MIN_CALL_GAP_MS = 2000` (gemini.ts line 94). -/
def MIN_CALL_GAP_MS : Int := 2000

/-- `backoffDelay(attempt) = 2 ** attempt * 15_000` (gemini.ts lines 79–81). -/
def backoffDelay (attempt : Nat) : Nat :=
  2 ^ attempt * 15000

/-- `isQuotaError(msg)` — retriable rate-limit signature (gemini.ts lines 84–86). -/
def isQuotaError (msg : String) : Bool :=
  strIncludes msg "429" || strIncludes msg "quota" || strIncludes msg "Quota"

/-- `isDailyQuotaExhausted(msg)` (gemini.ts lines 89–91). -/
def isDailyQuotaExhausted (msg : String) : Bool :=
  strIncludes msg "limit: 0" && strIncludes msg "PerDay"

/- ──────────────────────────────────────────────────────────────
   gemini.ts — throttle guard (lines 93–117)

   The JS module keeps two module-level mutables `_lastCallTime` and
   `_callInFlight`; we pass them as an explicit `ThrottleState`.
   `throttleGuard()` throws before any mutation, so a rejection is
   modelled as returning the message together with the *unchanged*
   state; on success both fields are written.
   ────────────────────────────────────────────────────────────── -/

structure ThrottleState where
  lastCallTime : Int
  callInFlight : Bool
deriving DecidableEq, Repr

/-- Message thrown when a call is already in flight (gemini.ts line 104). -/
def inFlightMsg : String :=
  "Ya hay una solicitud a Gemini en curso. Esperá a que termine."

/-- `Math.ceil(a / b)` on integers, `b > 0`. -/
def jsCeilDiv (a b : Int) : Int :=
  -((-a).fdiv b)

/-- Message thrown when the minimum inter-call gap has not elapsed
(gemini.ts line 109): `Demasiadas solicitudes. Esperá N s.` where
`N = Math.ceil((MIN_CALL_GAP_MS - elapsed) / 1000)`. -/
def tooSoonMsg (elapsed : Int) : String :=
  "Demasiadas solicitudes. Esperá " ++ toString (jsCeilDiv (MIN_CALL_GAP_MS - elapsed) 1000) ++ "s."

/-- Result of one `throttleGuard()` call: the thrown message (if any) and the
state of the two module-level variables after the call returns or throws. -/
structure GuardResult where
  thrown : Option String
  state : ThrottleState
deriving DecidableEq, Repr

/-- `throttleGuard()` (gemini.ts lines 102–113).  Checks run before any
mutation: on a rejection the state is returned untouched; on success the
in-flight flag is set and the call time recorded. -/
def throttleGuard (now : Int) (st : ThrottleState) : GuardResult :=
  if st.callInFlight then
    { thrown := some inFlightMsg, state := st }
  else
    let elapsed := now - st.lastCallTime
    if elapsed < MIN_CALL_GAP_MS then
      { thrown := some (tooSoonMsg elapsed), state := st }
    else
      { thrown := none, state := { lastCallTime := now, callInFlight := true } }

/-- `releaseThrottle()` (gemini.ts lines 115–117). -/
def releaseThrottle (st : ThrottleState) : ThrottleState :=
  { st with callInFlight := false }

/- ──────────────────────────────────────────────────────────────
   gemini.ts — retry/backoff engine (the attempt loop shared by
   analyzeCandidateProfile, analyzeJobFit, generateOutreachMessage)
   ────────────────────────────────────────────────────────────── -/

/-- A thrown JS error: its `.message` and whether it is a `SyntaxError`
(the only `instanceof` test the classification performs). -/
structure JsError where
  message : String
  isSyntaxError : Bool
deriving DecidableEq, Repr

/-- The decision a call site's `catch` block takes for a thrown error. -/
inductive Decision where
  | retryBackoff
  | terminalQuota (msg : String)
  | terminalMalformed (msg : String)
  | propagate
deriving DecidableEq, Repr

/-- The decision category, forgetting the site-specific message text. -/
inductive DecisionKind where
  | retryBackoff
  | terminalQuota
  | terminalMalformed
  | propagate
deriving DecidableEq, Repr

def kindOf : Decision → DecisionKind
  | .retryBackoff => .retryBackoff
  | .terminalQuota _ => .terminalQuota
  | .terminalMalformed _ => .terminalMalformed
  | .propagate => .propagate

/-- Terminal quota-exhaustion message of `analyzeCandidateProfile`
(gemini.ts lines 240–246). -/
def profileQuotaMsg : String :=
  "⏳ Cuota diaria agotada para el free tier de Gemini. Opciones:\n1. Espera a que se resetee (~24h)\n2. Crea otra API Key en https://aistudio.google.com/apikey\n3. Activa la facturación en Google Cloud para límites más altos"

/-- Terminal malformed-response message of `analyzeCandidateProfile`
(gemini.ts line 253). -/
def profileMalformedMsg : String :=
  "Gemini devolvió una respuesta que no es JSON válido. Intenta de nuevo."

/-- Terminal quota-exhaustion message of `analyzeJobFit` (gemini.ts line 361). -/
def fitQuotaMsg : String :=
  "⏳ Cuota diaria agotada. Espera ~24h o usa otra API Key."

/-- Terminal malformed-response message of `analyzeJobFit` (gemini.ts line 368). -/
def fitMalformedMsg : String :=
  "Gemini devolvió JSON inválido en análisis de fit. Intenta de nuevo."

/-- Terminal quota-exhaustion message of `generateOutreachMessage`
(gemini.ts line 461). -/
def outreachQuotaMsg : String :=
  "⏳ Cuota diaria agotada. Espera ~24h o usa otra API Key."

/-- The `catch` block of `analyzeCandidateProfile` (gemini.ts lines 234–256). -/
def classifyProfile (e : JsError) : Decision :=
  if isQuotaError e.message then
    if isDailyQuotaExhausted e.message then .terminalQuota profileQuotaMsg
    else .retryBackoff
  else if e.isSyntaxError then .terminalMalformed profileMalformedMsg
  else .propagate

/-- The `catch` block of `analyzeJobFit` (gemini.ts lines 355–371). -/
def classifyFit (e : JsError) : Decision :=
  if isQuotaError e.message then
    if isDailyQuotaExhausted e.message then .terminalQuota fitQuotaMsg
    else .retryBackoff
  else if e.isSyntaxError then .terminalMalformed fitMalformedMsg
  else .propagate

/-- The `catch` block of `generateOutreachMessage` (gemini.ts lines 455–467).
It has no `SyntaxError` branch: any non-rate-limit error is rethrown as-is. -/
def classifyOutreach (e : JsError) : Decision :=
  if isQuotaError e.message then
    if isDailyQuotaExhausted e.message then .terminalQuota outreachQuotaMsg
    else .retryBackoff
  else .propagate

/-- Post-loop exhaustion message of `analyzeCandidateProfile`
(gemini.ts lines 263–266). -/
def profileExhaustMsg (lastMsg : Option String) : String :=
  "Gemini no respondió después de " ++ toString MAX_RETRIES ++ " intentos. Último error: " ++ lastMsg.getD "desconocido"

/-- Post-loop exhaustion message of `analyzeJobFit` (gemini.ts lines 378–380). -/
def fitExhaustMsg (lastMsg : Option String) : String :=
  "Fit analysis failed after " ++ toString MAX_RETRIES ++ " attempts. Last: " ++ lastMsg.getD "unknown"

/-- Post-loop exhaustion message of `generateOutreachMessage`
(gemini.ts lines 474–476). -/
def outreachExhaustMsg (lastMsg : Option String) : String :=
  "Outreach generation failed after " ++ toString MAX_RETRIES ++ " attempts. Last: " ++ lastMsg.getD "unknown"

/-- Observable trace of one run of the retry loop: how many times the wrapped
call was attempted, which backoff delays were slept (in order), and the final
outcome (returned value or thrown error). -/
structure Trace (α : Type) where
  attemptsMade : Nat
  sleeps : List Nat
  outcome : Except JsError α
deriving Repr

/-- The `for (attempt = 0; attempt < MAX_RETRIES; attempt++)` loop shared by
the three call sites (gemini.ts lines 193–258, 337–373, 439–469), iterating
over the list of remaining attempt indices.  Before every attempt with
`attempt > 0` the loop sleeps `backoffDelay(attempt)`.  `call attempt` is the
body of the `try` block (the external call plus parsing/normalization);
on an error the site's `catch` block (`classify`) decides: retry with
backoff, throw a terminal error, or rethrow.  An empty attempt list is the
post-loop terminal error embedding the last underlying error message. -/
def loopGo {α : Type} (classify : JsError → Decision) (exhaust : Option String → String)
    (call : Nat → Except JsError α) : List Nat → Option String → Trace α
  | [], lastMsg => { attemptsMade := 0, sleeps := [], outcome := .error ⟨exhaust lastMsg, false⟩ }
  | attempt :: rest, _lastMsg =>
    let sl : List Nat := if attempt > 0 then [backoffDelay attempt] else []
    match call attempt with
    | .ok v => { attemptsMade := 1, sleeps := sl, outcome := .ok v }
    | .error e =>
      match classify e with
      | .retryBackoff =>
        let t := loopGo classify exhaust call rest (some e.message)
        { attemptsMade := t.attemptsMade + 1, sleeps := sl ++ t.sleeps, outcome := t.outcome }
      | .terminalQuota m => { attemptsMade := 1, sleeps := sl, outcome := .error ⟨m, false⟩ }
      | .terminalMalformed m => { attemptsMade := 1, sleeps := sl, outcome := .error ⟨m, false⟩ }
      | .propagate => { attemptsMade := 1, sleeps := sl, outcome := .error e }

/-- The retry loop of `analyzeCandidateProfile` (gemini.ts lines 193–258). -/
def runProfileRetry {α : Type} (call : Nat → Except JsError α) : Trace α :=
  loopGo classifyProfile profileExhaustMsg call (List.range MAX_RETRIES) none

/-- The retry loop of `analyzeJobFit` (gemini.ts lines 337–373). -/
def runFitRetry {α : Type} (call : Nat → Except JsError α) : Trace α :=
  loopGo classifyFit fitExhaustMsg call (List.range MAX_RETRIES) none

/-- The retry loop of `generateOutreachMessage` (gemini.ts lines 439–469). -/
def runOutreachRetry {α : Type} (call : Nat → Except JsError α) : Trace α :=
  loopGo classifyOutreach outreachExhaustMsg call (List.range MAX_RETRIES) none

/- ──────────────────────────────────────────────────────────────
   gemini.ts — the guarded call sites: `throttleGuard(); try { loop }
   finally { releaseThrottle(); }` (lines 191–261, 335–376, 437–472).
   The `finally` is modelled by applying `releaseThrottle`
   unconditionally once the loop has produced its trace, whether the
   trace's outcome is a returned value or a thrown error.  When the
   guard itself throws, the loop never runs and the state is whatever
   the guard left (unchanged).
   ────────────────────────────────────────────────────────────── -/

def runGuarded {α : Type} (retry : (Nat → Except JsError α) → Trace α)
    (now : Int) (st : ThrottleState) (call : Nat → Except JsError α) :
    Except String (Trace α) × ThrottleState :=
  let g := throttleGuard now st
  match g.thrown with
  | some m => (.error m, g.state)
  | none => (.ok (retry call), releaseThrottle g.state)

/-- `analyzeCandidateProfile`, restricted to its admission/retry/release
skeleton (gemini.ts lines 191–261). -/
def analyzeCandidateProfileRun {α : Type} (now : Int) (st : ThrottleState)
    (call : Nat → Except JsError α) : Except String (Trace α) × ThrottleState :=
  runGuarded runProfileRetry now st call

/-- `analyzeJobFit`, restricted to its admission/retry/release skeleton
(gemini.ts lines 335–376). -/
def analyzeJobFitRun {α : Type} (now : Int) (st : ThrottleState)
    (call : Nat → Except JsError α) : Except String (Trace α) × ThrottleState :=
  runGuarded runFitRetry now st call

/-- `generateOutreachMessage`, restricted to its admission/retry/release
skeleton (gemini.ts lines 437–472). -/
def generateOutreachMessageRun {α : Type} (now : Int) (st : ThrottleState)
    (call : Nat → Except JsError α) : Except String (Trace α) × ThrottleState :=
  runGuarded runOutreachRetry now st call

/- ──────────────────────────────────────────────────────────────
   dom_observer.ts — constants (lines 12–28)
   ────────────────────────────────────────────────────────────── -/

/-- `const MAX_TEXT_LENGTH = 200` (dom_observer.ts line 22). -/
def MAX_TEXT_LENGTH : Nat := 200

/-- `const DEBUG_OUTLINE = '1px dashed #e6007e'` (dom_observer.ts line 25). -/
def DEBUG_OUTLINE : String := "1px dashed #e6007e"

/- ──────────────────────────────────────────────────────────────
   dom_observer.ts — forbidden zones (lines 33–86)

   A CSS rule is modelled abstractly: a `valid` rule matches a node
   exactly when the rule's selector string is among the node's
   `features` (the classes/ids/roles the selector would match);
   an `invalid` rule is a selector the engine cannot parse.  A node's
   position in the tree is its ancestor chain: the feature set of the
   node itself followed by the feature sets of its ancestors, root-most
   last — exactly what `Element.closest` walks.

   In the browser, `el.closest(sel)` applied to a selector *list*
   throws a `SyntaxError` as soon as any member of the list is invalid
   (selector lists are parsed as a whole); `isInsideForbiddenZone`
   queries the single combined selector `FORBIDDEN_ZONES.join(', ')`
   and converts that exception to `false`.
   ────────────────────────────────────────────────────────────── -/

/-- A forbidden-zone rule: a parseable ancestor-matching selector, or a
malformed/unsupported one. -/
inductive Rule where
  | valid (sel : String)
  | invalid (sel : String)
deriving DecidableEq, Repr

/-- Does a single parseable rule match a node (described by its features)?
An invalid rule matches nothing on its own — it instead poisons the whole
selector list, which `hasInvalidRule` accounts for. -/
def ruleMatches : Rule → List String → Bool
  | .valid sel, feats => feats.contains sel
  | .invalid _, _ => false

/-- Does the rule list contain a malformed rule? -/
def hasInvalidRule (rules : List Rule) : Bool :=
  rules.any fun r => match r with
    | .invalid _ => true
    | .valid _ => false

/-- Does some rule of the list match the node? -/
def nodeMatchesAnyRule (rules : List Rule) (feats : List String) : Bool :=
  rules.any fun r => ruleMatches r feats

/-- Only the parseable rules of the list. -/
def validRules (rules : List Rule) : List Rule :=
  rules.filter fun r => match r with
    | .valid _ => true
    | .invalid _ => false

/-- Does the node or an ancestor match some *valid* rule of the list?
This is what per-rule fail-open behaviour would report. -/
def chainMatchesValidRule (rules : List Rule) (chain : List (List String)) : Bool :=
  chain.any fun feats => nodeMatchesAnyRule (validRules rules) feats

/-- `el.closest(rules.join(', ')) !== null` — walks the node and its
ancestors against the combined selector list.  Throws (`.error`) iff any
member of the list is invalid, as selector lists are parsed as a whole. -/
def closestMatch (rules : List Rule) (chain : List (List String)) : Except Unit Bool :=
  if hasInvalidRule rules then .error ()
  else .ok (chain.any fun feats => nodeMatchesAnyRule rules feats)

/-- `isInsideForbiddenZone(el)` (dom_observer.ts lines 79–86), parameterised
by the rule list: the `try`/`catch` converts a selector-parse exception into
`false`. -/
def isInsideForbiddenZone (rules : List Rule) (chain : List (List String)) : Bool :=
  match closestMatch rules chain with
  | .ok b => b
  | .error _ => false

/-- `FORBIDDEN_ZONES` (dom_observer.ts lines 33–70): the static rule list;
every selector in the source list is parseable. -/
def FORBIDDEN_ZONES : List Rule :=
  [ .valid ".msg-overlay-list-bubble"
  , .valid ".msg-overlay-conversation-bubble"
  , .valid ".msg-overlay-bubble-header"
  , .valid "aside.msg-overlay-container"
  , .valid ".msg-convo-wrapper"
  , .valid ".msg-s-message-list-container"
  , .valid ".msg-s-event-listitem"
  , .valid "[data-control-name=\"overlay.close_conversation_window\"]"
  , .valid ".msg-form"
  , .valid "#global-nav"
  , .valid ".global-nav"
  , .valid "header.global-nav__header"
  , .valid "footer"
  , .valid ".global-footer"
  , .valid ".li-footer"
  , .valid ".artdeco-modal-overlay"
  , .valid ".artdeco-modal"
  , .valid ".artdeco-toast-item"
  , .valid ".premium-upsell"
  , .valid ".ad-banner-container"
  , .valid ".scaffold-layout__aside"
  , .valid ".feed-follows-module"
  , .valid "[role=\"dialog\"]"
  , .valid "[role=\"alertdialog\"]"
  , .valid "[aria-label=\"Messaging\"]"
  ]

/- ──────────────────────────────────────────────────────────────
   dom_observer.ts — the document model

   `mapDOM` looks at each candidate node through a fixed set of
   probes; an `ElemData` records what those probes would return.
   The mutable per-node state touched by the scanner (`data-mcp-id`,
   `style.outline`, `style.position`) lives in a `Store` keyed by a
   node identity.
   ────────────────────────────────────────────────────────────── -/

/-- The immutable facts `mapDOM` reads off one candidate element. -/
structure ElemData where
  /-- `el.tagName` (upper-cased by the DOM). -/
  tagName : String
  /-- `el.offsetParent === null`. -/
  offsetParentNull : Bool
  /-- `el.offsetWidth`. -/
  offsetWidth : Nat
  /-- `el.offsetHeight`. -/
  offsetHeight : Nat
  /-- `getComputedStyle(el).visibility`. -/
  styleVisibility : String
  /-- `getComputedStyle(el).opacity`. -/
  styleOpacity : String
  /-- Feature sets of the node and its ancestors (node first), for
  `Element.closest` matching. -/
  chain : List (List String)
  /-- `textContent` of the node's direct text-node children, in order. -/
  childTextNodes : List String
  /-- `el.getAttribute('href')` (`none` = attribute absent). -/
  hrefAttr : Option String
  /-- `el.getAttribute('aria-label')`. -/
  ariaLabel : Option String
  /-- `el.getAttribute('title')`. -/
  titleAttr : Option String
deriving Repr

/-- The mutable state the scanner leaves on one node. -/
structure ElemState where
  /-- The `data-mcp-id` attribute (`none` = absent). -/
  mcpId : Option Nat
  /-- `el.style.outline`. -/
  outline : String
  /-- `el.style.position`. -/
  position : String
deriving DecidableEq, Repr

/-- A node with no scanner residue and no inline position. -/
def ElemState.clean : ElemState :=
  { mcpId := none, outline := "", position := "" }

/-- Per-node mutable state of the whole document, keyed by node identity. -/
def Store : Type := Nat → ElemState

/-- Point update of a store. -/
def updStore (st : Store) (id : Nat) (f : ElemState → ElemState) : Store :=
  fun j => if j = id then f (st j) else st j

/-- `isVisible(el)` (dom_observer.ts lines 139–147). -/
def isVisible (e : ElemData) : Bool :=
  if e.offsetParentNull && e.tagName != "BODY" then false
  else if e.offsetWidth == 0 && e.offsetHeight == 0 then false
  else e.styleVisibility != "hidden" && e.styleOpacity != "0"

/-- JS whitespace as matched by `/\s/` (the forms relevant here). -/
def isWSChar (c : Char) : Bool :=
  c == ' ' || c == '\t' || c == '\n' || c == '\r' || c == '\x0b' || c == '\x0c'

/-- `.replace(/\s+/g, ' ').trim()`: collapse whitespace runs to single
spaces and trim, i.e. join the whitespace-separated tokens with one space. -/
def normalizeWS (s : String) : String :=
  String.intercalate " " ((s.split isWSChar).filter fun t => t != "")

/-- `getDirectText(el)` (dom_observer.ts lines 102–110): concatenate the
direct text-node children, then collapse/trim whitespace. -/
def getDirectText (e : ElemData) : String :=
  normalizeWS (String.join e.childTextNodes)

/-- The per-element text pipeline of the scan loop before the length check
(dom_observer.ts lines 182–200): direct text, then the `<A>` href suffix,
then the `<BUTTON>` aria-label/title fallback. -/
def elementText (e : ElemData) : String :=
  let text := getDirectText e
  let text :=
    if e.tagName == "A" then
      let href := e.hrefAttr.getD ""
      if href != "" && text != "" then text ++ " → " ++ href
      else if href != "" && text == "" then href
      else text
    else text
  if e.tagName == "BUTTON" && text == "" then
    (e.ariaLabel.getD (e.titleAttr.getD ""))
  else text

/-- Truncation with ellipsis (dom_observer.ts lines 206–208). -/
def truncateText (text : String) : String :=
  if text.length > MAX_TEXT_LENGTH then (text.take MAX_TEXT_LENGTH).push '…' else text

/-- `clearPreviousMapping()` (dom_observer.ts lines 122–133): for every node
registered in `_mappedElements`, remove the `data-mcp-id` attribute and reset
`style.outline`; the set itself is emptied by the caller's context (`mapDOM`
starts its scan with an empty registry). -/
def clearStore (st : Store) (mapped : List Nat) : Store :=
  mapped.foldl (fun s id => updStore s id fun es => { es with mcpId := none, outline := "" }) st

/-- What the scan loop does to a node it maps (dom_observer.ts lines
210–219): set the anchor attribute, and in debug mode apply the outline and
`position = position || 'relative'`. -/
def applyMapping (debug : Bool) (counter : Nat) (es : ElemState) : ElemState :=
  let es := { es with mcpId := some counter }
  if debug then
    { es with outline := DEBUG_OUTLINE
            , position := if es.position == "" then "relative" else es.position }
  else es

/-- Result of the scan loop: the structured emitted lines
`(anchor, tagName, text)` in order, the final per-node state, and the new
`_mappedElements` registry. -/
structure ScanOut where
  lines : List (Nat × String × String)
  store : Store
  mapped : List Nat

/-- The `for (const el of elements)` loop of `mapDOM` (dom_observer.ts lines
172–224): skip invisible nodes, skip forbidden zones, build the text, skip
text shorter than 2, truncate, then assign the next anchor, register the
node, apply debug styling and emit the line. -/
def scanLoop (debug : Bool) : List (Nat × ElemData) → Nat → Store → List Nat → ScanOut
  | [], _counter, st, mapped => { lines := [], store := st, mapped := mapped }
  | (id, e) :: rest, counter, st, mapped =>
    if !isVisible e then scanLoop debug rest counter st mapped
    else if isInsideForbiddenZone FORBIDDEN_ZONES e.chain then scanLoop debug rest counter st mapped
    else
      let text := elementText e
      if text.length < 2 then scanLoop debug rest counter st mapped
      else
        let text := truncateText text
        let counter := counter + 1
        let st := updStore st id (applyMapping debug counter)
        let mapped := mapped ++ [id]
        let r := scanLoop debug rest counter st mapped
        { lines := (counter, e.tagName, text) :: r.lines, store := r.store, mapped := r.mapped }

/-- Line formatting `[N] <TAG> "text"` (dom_observer.ts line 223). -/
def fmtLine : Nat × String × String → String
  | (n, tag, text) => "[" ++ toString n ++ "] <" ++ tag ++ "> \"" ++ text ++ "\""

/-- The `[EMPTY]` sentinel (dom_observer.ts line 231). -/
def EMPTY_SENTINEL : String :=
  "[EMPTY] No se encontraron elementos relevantes en la página."

/-- Result of one `mapDOM` call. -/
structure ScanResult where
  output : String
  lines : List (Nat × String × String)
  store : Store
  mapped : List Nat

/-- `mapDOM(debug)` (dom_observer.ts lines 160–235): clear the previous
mapping (only the registered nodes), reset the registry and the counter,
run the scan loop over the candidate nodes in document order, and join the
emitted lines (`[EMPTY]` sentinel when none). -/
def mapDOM (debug : Bool) (doc : List (Nat × ElemData)) (st : Store) (mapped : List Nat) :
    ScanResult :=
  let st0 := clearStore st mapped
  let r := scanLoop debug doc 0 st0 []
  { output :=
      if r.lines.isEmpty then EMPTY_SENTINEL
      else String.intercalate "\n" (r.lines.map fmtLine)
  , lines := r.lines
  , store := r.store
  , mapped := r.mapped }

/- ──────────────────────────────────────────────────────────────
   gemini.ts — response normalizer (safeParseJSON output handling)

   The values returned by `JSON.parse` (plus `undefined` for absent
   properties and `NaN` for failed numeric coercion, which the
   normalizer code can produce) are modelled by `JVal`; numbers are
   restricted to integers, which covers everything the claims touch.
   ────────────────────────────────────────────────────────────── -/

/-- A JavaScript value as seen by the normalizer code. -/
inductive JVal where
  | jundefined
  | jnull
  | jbool (b : Bool)
  | jnum (n : Int)
  | jnan
  | jstr (s : String)
  | jarr (elems : List JVal)
  | jobj (fields : List (String × JVal))
deriving Repr

/-- JS truthiness. -/
def jsTruthy : JVal → Bool
  | .jundefined => false
  | .jnull => false
  | .jbool b => b
  | .jnum n => n != 0
  | .jnan => false
  | .jstr s => s != ""
  | .jarr _ => true
  | .jobj _ => true

/-- `a || b`. -/
def jsOr (a b : JVal) : JVal :=
  if jsTruthy a then a else b

/-- `a ?? b` (nullish coalescing). -/
def jsNullish (a b : JVal) : JVal :=
  match a with
  | .jundefined => b
  | .jnull => b
  | v => v

mutual

/-- `String(v)`; array elements stringify with `null`/`undefined` as the
empty string, joined by commas, per `Array.prototype.toString`. -/
def jsToString : JVal → String
  | .jundefined => "undefined"
  | .jnull => "null"
  | .jbool b => if b then "true" else "false"
  | .jnum n => toString n
  | .jnan => "NaN"
  | .jstr s => s
  | .jarr xs => String.intercalate "," (jsArrParts xs)
  | .jobj _ => "[object Object]"

def jsArrParts : List JVal → List String
  | [] => []
  | .jnull :: rest => "" :: jsArrParts rest
  | .jundefined :: rest => "" :: jsArrParts rest
  | v :: rest => jsToString v :: jsArrParts rest

end

/-- `Number(s)` on a string: the trimmed empty string is `0`; an optionally
signed decimal integer literal parses; anything else (in this integer model)
is `NaN` (`none`). -/
def jsStrToNumber (s : String) : Option Int :=
  let t := s.trim
  if t = "" then some 0
  else
    let (sign, digits) :=
      if t.startsWith "-" then ((-1 : Int), t.drop 1)
      else if t.startsWith "+" then ((1 : Int), t.drop 1)
      else ((1 : Int), t)
    if digits != "" && digits.all Char.isDigit then
      some (sign * Int.ofNat digits.toNat!)
    else none

/-- `Number(v)`; `none` models `NaN`. -/
def jsToNumber : JVal → Option Int
  | .jundefined => none
  | .jnull => some 0
  | .jbool b => some (if b then 1 else 0)
  | .jnum n => some n
  | .jnan => none
  | .jstr s => jsStrToNumber s
  | .jarr xs => jsStrToNumber (jsToString (.jarr xs))
  | .jobj _ => none

/-- `Number(v) || 0`: `NaN` (and `0` itself) collapse to `0`. -/
def jsNumberOr0 (v : JVal) : Int :=
  match jsToNumber v with
  | some n => n
  | none => 0

/-- `v === 'lit'` for a string literal. -/
def isStrEq (v : JVal) (s : String) : Bool :=
  match v with
  | .jstr t => t == s
  | _ => false

/-- Is the value a JS array (`Array.isArray`)? -/
def isJArr : JVal → Bool
  | .jarr _ => true
  | _ => false

/-- Property access `v[key]`: `none` models the `TypeError` thrown when
reading a property of `null`/`undefined`; reading an absent property or a
property of any other non-object yields `undefined`. -/
def jGetEx (v : JVal) (key : String) : Option JVal :=
  match v with
  | .jundefined => none
  | .jnull => none
  | .jobj fields => some ((fields.lookup key).getD .jundefined)
  | _ => some .jundefined

/-- `Array.isArray(v) ? v.map(String) : []`. -/
def jsArrOfStrings (v : JVal) : List String :=
  match v with
  | .jarr xs => xs.map jsToString
  | _ => []

/-- `inferSource(parsedSource, url)` (gemini.ts lines 272–282). -/
def inferSource (parsedSource : JVal) (url : String) : String :=
  if isStrEq parsedSource "linkedin" then "linkedin"
  else if isStrEq parsedSource "indeed" then "indeed"
  else if strIncludes url "linkedin.com" then "linkedin"
  else if strIncludes url "indeed.com" then "indeed"
  else "other"

structure ExperienceEntry where
  company : String
  role : String
  duration : String
deriving DecidableEq, Repr

structure EducationEntry where
  institution : String
  degree : String
  year : String
deriving DecidableEq, Repr

/-- The typed candidate record produced by `analyzeCandidateProfile`
(`CandidateProfile` of `shared/types`). -/
structure CandidateProfile where
  fullName : String
  currentRole : String
  location : String
  profileUrl : String
  source : String
  summary : String
  email : String
  phone : String
  skills : List String
  experience : List ExperienceEntry
  certifications : List String
  education : List EducationEntry
  status : String
deriving DecidableEq, Repr

/-- `Array.isArray(v) ? v.map(f) : []` for a fallible per-element mapping
(`none` models a `TypeError` thrown while mapping an element). -/
def normEntries {β : Type} (f : JVal → Option β) (v : JVal) : Option (List β) :=
  match v with
  | .jarr xs => xs.mapM f
  | _ => some []

/-- One element of the `experience` mapping (gemini.ts lines 216–220);
`none` models the `TypeError` when an element is `null`/`undefined`. -/
def normExp (v : JVal) : Option ExperienceEntry := do
  let c ← jGetEx v "company"
  let r ← jGetEx v "role"
  let d ← jGetEx v "duration"
  some { company := jsToString (jsOr c (.jstr ""))
       , role := jsToString (jsOr r (.jstr ""))
       , duration := jsToString (jsOr d (.jstr "")) }

/-- One element of the `education` mapping (gemini.ts lines 224–228). -/
def normEdu (v : JVal) : Option EducationEntry := do
  let i ← jGetEx v "institution"
  let d ← jGetEx v "degree"
  let y ← jGetEx v "year"
  some { institution := jsToString (jsOr i (.jstr ""))
       , degree := jsToString (jsOr d (.jstr ""))
       , year := jsToString (jsOr y (.jstr "")) }

/-- The profile object literal of `analyzeCandidateProfile` (gemini.ts lines
205–231): per-field defaulting/coercion of the parsed response; `none`
models a thrown `TypeError` (e.g. a `null` parsed value or a `null`
experience entry), which the surrounding `catch` would treat as an
unclassified error. -/
def normalizeProfile (parsed : JVal) (pageUrl : String) : Option CandidateProfile := do
  let fullName ← jGetEx parsed "fullName"
  let currentRole ← jGetEx parsed "currentRole"
  let location ← jGetEx parsed "location"
  let profileUrl ← jGetEx parsed "profileUrl"
  let source ← jGetEx parsed "source"
  let summary ← jGetEx parsed "summary"
  let email ← jGetEx parsed "email"
  let phone ← jGetEx parsed "phone"
  let skills ← jGetEx parsed "skills"
  let experience ← jGetEx parsed "experience"
  let certifications ← jGetEx parsed "certifications"
  let education ← jGetEx parsed "education"
  let exps ← normEntries normExp experience
  let edus ← normEntries normEdu education
  some { fullName := jsToString (jsOr fullName (.jstr ""))
       , currentRole := jsToString (jsOr currentRole (.jstr ""))
       , location := jsToString (jsOr location (.jstr ""))
       , profileUrl := jsToString (jsOr profileUrl (jsOr (.jstr pageUrl) (.jstr "")))
       , source := inferSource source pageUrl
       , summary := jsToString (jsOr summary (.jstr ""))
       , email := jsToString (jsOr email (.jstr ""))
       , phone := jsToString (jsOr phone (.jstr ""))
       , skills := jsArrOfStrings skills
       , experience := exps
       , certifications := jsArrOfStrings certifications
       , education := edus
       , status := "new" }

/-- The typed fit record produced by `analyzeJobFit` (`JobFitResult`). -/
structure JobFitResult where
  score : Int
  verdict : String
  matchingSkills : List String
  gaps : List String
  strengths : List String
deriving DecidableEq, Repr

/-- The fit object literal of `analyzeJobFit` (gemini.ts lines 348–354):
`score` is `Math.max(0, Math.min(100, Number(parsed.score) || 0))`,
`verdict` is `String(parsed.verdict ?? '')`, the three lists default to `[]`
when not arrays. -/
def normalizeFit (parsed : JVal) : Option JobFitResult := do
  let sc ← jGetEx parsed "score"
  let vd ← jGetEx parsed "verdict"
  let ms ← jGetEx parsed "matchingSkills"
  let gp ← jGetEx parsed "gaps"
  let sg ← jGetEx parsed "strengths"
  some { score := max 0 (min 100 (jsNumberOr0 sc))
       , verdict := jsToString (jsNullish vd (.jstr ""))
       , matchingSkills := jsArrOfStrings ms
       , gaps := jsArrOfStrings gp
       , strengths := jsArrOfStrings sg }

/- ──────────────────────────────────────────────────────────────
   Helper lemmas
   ────────────────────────────────────────────────────────────── -/

lemma strDataAppend (a b : String) : (a ++ b).data = a.data ++ b.data := by
  cases a
  cases b
  rfl

/-- The two throttle rejection messages are distinguishable whatever the
wait time embedded in the second one: they start with different words. -/
lemma tooSoonMsg_ne_inFlightMsg (e : Int) : tooSoonMsg e ≠ inFlightMsg := by
  intro h
  have h2 : (tooSoonMsg e).data = inFlightMsg.data := congrArg String.data h
  unfold tooSoonMsg inFlightMsg at h2
  rw [strDataAppend, strDataAppend] at h2
  rw [show ("Demasiadas solicitudes. Esperá ").data =
      'D' :: ("emasiadas solicitudes. Esperá ").data from rfl] at h2
  rw [show ("Ya hay una solicitud a Gemini en curso. Esperá a que termine.").data =
      'Y' :: ("a hay una solicitud a Gemini en curso. Esperá a que termine.").data from rfl] at h2
  rw [List.cons_append, List.cons_append] at h2
  exact absurd (List.head_eq_of_cons_eq h2) (by decide)

/- ──────────────────────────────────────────────────────────────
   C6 — throttle guard admission characterization
   ────────────────────────────────────────────────────────────── -/

/-- C6: `acquire` (the throttle guard) fails immediately in exactly two
cases — a call already in flight, or less than `MIN_CALL_GAP_MS = 2000` ms
elapsed since the previous successful acquire — with distinguishable
messages (call-in-progress vs wait-N-seconds), and otherwise succeeds,
marking a call in flight and recording the current time. -/
theorem throttle_acquire_characterization (now : Int) (st : ThrottleState) :
    (st.callInFlight = true →
      throttleGuard now st = { thrown := some inFlightMsg, state := st }) ∧
    (st.callInFlight = false → now - st.lastCallTime < MIN_CALL_GAP_MS →
      throttleGuard now st = { thrown := some (tooSoonMsg (now - st.lastCallTime)), state := st }) ∧
    (st.callInFlight = false → MIN_CALL_GAP_MS ≤ now - st.lastCallTime →
      throttleGuard now st = { thrown := none, state := { lastCallTime := now, callInFlight := true } }) ∧
    (∀ e : Int, tooSoonMsg e ≠ inFlightMsg) := by
  refine ⟨?_, ?_, ?_, tooSoonMsg_ne_inFlightMsg⟩
  · intro h
    simp [throttleGuard, h]
  · intro h1 h2
    simp [throttleGuard, h1, h2]
  · intro h1 h2
    simp [throttleGuard, h1, not_lt.mpr h2]

/-- C6 witness: a concrete successful acquire after the cooldown. -/
theorem throttle_acquire_characterization_witness :
    throttleGuard 5000 { lastCallTime := 0, callInFlight := false } =
      { thrown := none, state := { lastCallTime := 5000, callInFlight := true } } :=
  (throttle_acquire_characterization 5000 { lastCallTime := 0, callInFlight := false }).2.2.1
    rfl (by decide)

/- ──────────────────────────────────────────────────────────────
   C10 — a rejected acquire leaves the throttle state untouched
   ────────────────────────────────────────────────────────────── -/

/-- C10: whenever the throttle guard rejects a call (throws), the throttle
state is exactly as before the call — the in-flight flag and the last-call
timestamp are unchanged, so a rejection neither restarts the cooldown window
nor marks a call in flight. -/
theorem throttle_reject_state_unchanged (now : Int) (st : ThrottleState) (msg : String)
    (h : (throttleGuard now st).thrown = some msg) :
    (throttleGuard now st).state = st := by
  by_cases hf : st.callInFlight
  · simp [throttleGuard, hf]
  · by_cases hlt : now - st.lastCallTime < MIN_CALL_GAP_MS
    · simp [throttleGuard, hf, hlt]
    · exfalso
      simp [throttleGuard, hf, hlt] at h

/-- C10 witness: a concrete in-flight rejection leaves the state unchanged. -/
theorem throttle_reject_state_unchanged_witness :
    (throttleGuard 100 { lastCallTime := 0, callInFlight := true }).state =
      { lastCallTime := 0, callInFlight := true } :=
  throttle_reject_state_unchanged 100 { lastCallTime := 0, callInFlight := true }
    inFlightMsg (by decide)

/- ──────────────────────────────────────────────────────────────
   C7 — the guard is released on every exit path of the three
   AI operations
   ────────────────────────────────────────────────────────────── -/

/-- C7: for every execution of any of the three AI operations that passes
admission, the in-flight flag is cleared by the time the operation
completes — the `finally`-scoped `releaseThrottle` runs whether the retry
loop's outcome is a returned value or a thrown error, so a thrown exception
in the wrapped call can never leave the guard permanently locked. -/
theorem guarded_calls_release_in_flight {α β γ : Type} (now : Int) (st : ThrottleState)
    (c1 : Nat → Except JsError α) (c2 : Nat → Except JsError β) (c3 : Nat → Except JsError γ)
    (h : (throttleGuard now st).thrown = none) :
    (analyzeCandidateProfileRun now st c1).2.callInFlight = false ∧
    (analyzeJobFitRun now st c2).2.callInFlight = false ∧
    (generateOutreachMessageRun now st c3).2.callInFlight = false := by
  refine ⟨?_, ?_, ?_⟩ <;>
    simp [analyzeCandidateProfileRun, analyzeJobFitRun, generateOutreachMessageRun,
      runGuarded, h, releaseThrottle]

/-- C7 witness: concrete run (the wrapped call throws a non-retriable error
on every attempt; the flag is still cleared). -/
theorem guarded_calls_release_in_flight_witness :
    ((analyzeCandidateProfileRun 5000 { lastCallTime := 0, callInFlight := false }
        (fun _ => (.error { message := "boom", isSyntaxError := false } :
          Except JsError Nat))).2.callInFlight = false) ∧
    ((analyzeJobFitRun 5000 { lastCallTime := 0, callInFlight := false }
        (fun _ => (.ok 0 : Except JsError Nat))).2.callInFlight = false) ∧
    ((generateOutreachMessageRun 5000 { lastCallTime := 0, callInFlight := false }
        (fun _ => (.ok "hi" : Except JsError String))).2.callInFlight = false) :=
  guarded_calls_release_in_flight 5000 { lastCallTime := 0, callInFlight := false }
    (fun _ => (.error { message := "boom", isSyntaxError := false } : Except JsError Nat))
    (fun _ => (.ok 0 : Except JsError Nat))
    (fun _ => (.ok "hi" : Except JsError String)) (by decide)

/- ──────────────────────────────────────────────────────────────
   C4 — transient rate limit on attempt 1, success on attempt 2
   ────────────────────────────────────────────────────────────── -/

/-- C4: when the wrapped call fails on attempt 1 with a transient rate-limit
error (a quota signature that is not daily exhaustion) and succeeds on
attempt 2, the retry engine performs exactly 2 attempts, sleeps exactly the
exponential backoff delay `backoffDelay 1 = 2^1 * 15000 = 30000` ms before
the second attempt, and returns the successful result of attempt 2. -/
theorem retry_transient_then_success {α : Type} (call : Nat → Except JsError α)
    (e : JsError) (v : α)
    (h0 : call 0 = .error e) (hq : isQuotaError e.message = true)
    (hd : isDailyQuotaExhausted e.message = false) (h1 : call 1 = .ok v) :
    runProfileRetry call = { attemptsMade := 2, sleeps := [30000], outcome := .ok v } ∧
    backoffDelay 1 = 2 ^ 1 * 15000 ∧ backoffDelay 1 = 30000 := by
  refine ⟨?_, rfl, rfl⟩
  unfold runProfileRetry
  rw [show List.range MAX_RETRIES = [0, 1, 2] from rfl]
  simp [loopGo, h0, h1, classifyProfile, hq, hd, backoffDelay]

/-- C4 witness: a concrete call failing with `429` once, then succeeding. -/
theorem retry_transient_then_success_witness :
    runProfileRetry
        (fun n => if n = 0 then (.error { message := "429 Resource exhausted", isSyntaxError := false } : Except JsError Nat) else .ok 37) =
      { attemptsMade := 2, sleeps := [30000], outcome := .ok 37 } :=
  (retry_transient_then_success
    (fun n => if n = 0 then (.error { message := "429 Resource exhausted", isSyntaxError := false } : Except JsError Nat) else .ok 37)
    { message := "429 Resource exhausted", isSyntaxError := false } 37
    rfl (by decide) (by decide) rfl).1

/- ──────────────────────────────────────────────────────────────
   C5 — daily quota exhaustion: one attempt, terminal error
   ────────────────────────────────────────────────────────────── -/

/-- C5: when attempt 1 of the wrapped call fails with a rate-limit error
whose message additionally signals a zero-per-day allowance, the engine
performs exactly 1 attempt, sleeps no backoff delay, and throws the distinct
terminal quota-exhaustion error whose message carries the user-facing
remediation guidance (wait for the reset, create another API key, enable
billing). -/
theorem quota_exhausted_no_retry {α : Type} (call : Nat → Except JsError α) (e : JsError)
    (h0 : call 0 = .error e) (hq : isQuotaError e.message = true)
    (hd : isDailyQuotaExhausted e.message = true) :
    runProfileRetry call =
      { attemptsMade := 1, sleeps := [],
        outcome := .error { message := profileQuotaMsg, isSyntaxError := false } } ∧
    strIncludes profileQuotaMsg "Espera a que se resetee" = true ∧
    strIncludes profileQuotaMsg "Crea otra API Key" = true ∧
    strIncludes profileQuotaMsg "Activa la facturación" = true := by
  refine ⟨?_, by decide, by decide, by decide⟩
  unfold runProfileRetry
  rw [show List.range MAX_RETRIES = [0, 1, 2] from rfl]
  simp [loopGo, h0, classifyProfile, hq, hd]

/-- C5 witness: the daily-exhaustion signature from the repository's own
test suite. -/
theorem quota_exhausted_no_retry_witness :
    runProfileRetry
        (fun _ => (.error { message := "429 quota Quota limit: 0 PerDay", isSyntaxError := false } : Except JsError Nat)) =
      { attemptsMade := 1, sleeps := [],
        outcome := .error { message := profileQuotaMsg, isSyntaxError := false } } :=
  (quota_exhausted_no_retry
    (fun _ => (.error { message := "429 quota Quota limit: 0 PerDay", isSyntaxError := false } : Except JsError Nat))
    { message := "429 quota Quota limit: 0 PerDay", isSyntaxError := false }
    rfl (by decide) (by decide)).1

/- ──────────────────────────────────────────────────────────────
   C9 — uniformity of error classification across the call sites
   ────────────────────────────────────────────────────────────── -/

/-- Does the decision continue the loop (consume an attempt and retry)? -/
def isRetryDecision : Decision → Bool
  | .retryBackoff => true
  | _ => false

/-- A `SyntaxError` whose message carries none of the rate-limit
signatures. -/
def parseFailProbe : JsError :=
  { message := "Unexpected token < in JSON", isSyntaxError := true }

/-- C9 counterexample: the classification is *not* identical at the three
call sites.  A non-rate-limit `SyntaxError` is converted into a terminal
malformed-response error by `analyzeCandidateProfile` (and `analyzeJobFit`),
but `generateOutreachMessage` has no malformed-response branch and
propagates it as an unclassified error. -/
theorem classification_not_uniform :
    kindOf (classifyProfile parseFailProbe) = DecisionKind.terminalMalformed ∧
    kindOf (classifyOutreach parseFailProbe) = DecisionKind.propagate ∧
    DecisionKind.terminalMalformed ≠ DecisionKind.propagate :=
  ⟨by decide, by decide, by decide⟩

/-- Two classifiers that agree on which errors are retriable induce retry
loops with identical attempt counts and identical backoff sleep schedules
on every call behaviour (only the error values of the outcome may differ). -/
lemma loopGo_same_schedule {α : Type} (cl1 cl2 : JsError → Decision)
    (ex1 ex2 : Option String → String) (call : Nat → Except JsError α)
    (h : ∀ e, isRetryDecision (cl1 e) = isRetryDecision (cl2 e)) :
    ∀ (atts : List Nat) (l1 l2 : Option String),
      (loopGo cl1 ex1 call atts l1).attemptsMade = (loopGo cl2 ex2 call atts l2).attemptsMade ∧
      (loopGo cl1 ex1 call atts l1).sleeps = (loopGo cl2 ex2 call atts l2).sleeps := by
  intro atts
  induction atts with
  | nil =>
    intro l1 l2
    simp [loopGo]
  | cons a rest ih =>
    intro l1 l2
    have he := h
    simp only [loopGo]
    cases hc : call a with
    | ok v => simp
    | error e =>
      have hre := he e
      cases hc1 : cl1 e <;> cases hc2 : cl2 e <;>
        simp [hc1, hc2, isRetryDecision] at hre ⊢ <;>
        exact ⟨(ih (some e.message) (some e.message)).1, (ih (some e.message) (some e.message)).2⟩

/-- C9 (amended): the error classification and backoff policy agree across
the three call sites exactly as the code allows: `analyzeCandidateProfile`
and `analyzeJobFit` take decisions of the same kind on every error; the
rate-limit handling (transient retry vs terminal daily-quota exhaustion)
is the same at all three sites, and the attempt counts and backoff sleep
schedules of the three retry loops coincide on every call behaviour; but
`generateOutreachMessage`, which performs no structured parsing, has no
malformed-response case and instead propagates non-rate-limit
`SyntaxError`s like any other error. -/
theorem classification_uniformity_amended :
    (∀ e, kindOf (classifyProfile e) = kindOf (classifyFit e)) ∧
    (∀ e, e.isSyntaxError = false → kindOf (classifyOutreach e) = kindOf (classifyProfile e)) ∧
    (∀ e, isQuotaError e.message = true → kindOf (classifyOutreach e) = kindOf (classifyProfile e)) ∧
    (∀ (α : Type) (call : Nat → Except JsError α),
      (runProfileRetry call).attemptsMade = (runFitRetry call).attemptsMade ∧
      (runProfileRetry call).sleeps = (runFitRetry call).sleeps ∧
      (runProfileRetry call).attemptsMade = (runOutreachRetry call).attemptsMade ∧
      (runProfileRetry call).sleeps = (runOutreachRetry call).sleeps) := by
  have hpf : ∀ e, isRetryDecision (classifyProfile e) = isRetryDecision (classifyFit e) := by
    intro e
    simp only [classifyProfile, classifyFit]
    split_ifs <;> rfl
  have hpo : ∀ e, isRetryDecision (classifyProfile e) = isRetryDecision (classifyOutreach e) := by
    intro e
    simp only [classifyProfile, classifyOutreach]
    split_ifs <;> rfl
  refine ⟨?_, ?_, ?_, ?_⟩
  · intro e
    simp only [classifyProfile, classifyFit]
    split_ifs <;> rfl
  · intro e hs
    simp only [classifyProfile, classifyOutreach, hs]
    split_ifs <;> simp_all [kindOf]
  · intro e hq
    simp only [classifyProfile, classifyOutreach, hq]
    split_ifs <;> simp_all [kindOf]
  · intro α call
    have h1 := loopGo_same_schedule classifyProfile classifyFit
      profileExhaustMsg fitExhaustMsg call hpf (List.range MAX_RETRIES) none none
    have h2 := loopGo_same_schedule classifyProfile classifyOutreach
      profileExhaustMsg outreachExhaustMsg call hpo (List.range MAX_RETRIES) none none
    exact ⟨h1.1, h1.2, h2.1, h2.2⟩

/-- C9 witness: concrete instantiation of the amended uniformity — the
schedules of the three loops coincide on a call that hits a transient rate
limit twice and then succeeds. -/
theorem classification_uniformity_amended_witness :
    (runProfileRetry (fun n => if n < 2 then (.error { message := "429", isSyntaxError := false } : Except JsError Nat) else .ok 5)).sleeps =
      (runOutreachRetry (fun n => if n < 2 then (.error { message := "429", isSyntaxError := false } : Except JsError Nat) else .ok 5)).sleeps :=
  ((classification_uniformity_amended.2.2.2 Nat
    (fun n => if n < 2 then (.error { message := "429", isSyntaxError := false } : Except JsError Nat) else .ok 5)).2.2.2)

/- ──────────────────────────────────────────────────────────────
   C2 — forbidden-zone filter with an invalid rule in the list
   ────────────────────────────────────────────────────────────── -/

/-- C2 counterexample: with an invalid rule in the list, the combined
selector query throws and the catch turns the whole check into "no match" —
a node that matches a remaining *valid* rule is still reported as not
inside a forbidden zone, contradicting per-rule fail-open. -/
theorem forbidden_zone_counterexample :
    hasInvalidRule [Rule.invalid "[", Rule.valid "nav"] = true ∧
    chainMatchesValidRule [Rule.invalid "[", Rule.valid "nav"] [["nav"]] = true ∧
    isInsideForbiddenZone [Rule.invalid "[", Rule.valid "nav"] [["nav"]] = false := by
  decide

/-- C2 (amended): the forbidden-zone check never raises, but a single
invalid rule poisons the one combined selector query, so the check fails
open for the *entire* list — it reports "no match" for every node, even one
matching a remaining valid rule; with no invalid rule present it reports
exactly whether the node or an ancestor matches some rule. -/
theorem forbidden_zone_fail_open_whole_list (rules : List Rule) (chain : List (List String)) :
    (hasInvalidRule rules = true → isInsideForbiddenZone rules chain = false) ∧
    (hasInvalidRule rules = false →
      isInsideForbiddenZone rules chain = chain.any fun feats => nodeMatchesAnyRule rules feats) := by
  constructor
  · intro h
    simp [isInsideForbiddenZone, closestMatch, h]
  · intro h
    simp [isInsideForbiddenZone, closestMatch, h]

/-- C2 witness: concrete evaluation of both halves of the amended claim. -/
theorem forbidden_zone_fail_open_whole_list_witness :
    isInsideForbiddenZone [Rule.invalid "[", Rule.valid "nav"] [["nav"]] = false ∧
    isInsideForbiddenZone [Rule.valid "nav"] [["nav"]] = true :=
  ⟨(forbidden_zone_fail_open_whole_list [Rule.invalid "[", Rule.valid "nav"] [["nav"]]).1
      (by decide),
   by
    rw [(forbidden_zone_fail_open_whole_list [Rule.valid "nav"] [["nav"]]).2 (by decide)]
    decide⟩

/- ──────────────────────────────────────────────────────────────
   C1 — anchors are the dense sequence 1..N in document order
   ────────────────────────────────────────────────────────────── -/

/-- The anchors emitted by the scan loop starting at counter `c` are exactly
`c+1, c+2, ...` in order. -/
lemma scanLoop_anchors (d : Bool) :
    ∀ (es : List (Nat × ElemData)) (c : Nat) (st : Store) (m : List Nat),
      (scanLoop d es c st m).lines.map (fun l => l.1) =
        List.range' (c + 1) (scanLoop d es c st m).lines.length := by
  intro es
  induction es with
  | nil =>
    intro c st m
    simp [scanLoop]
  | cons p rest ih =>
    obtain ⟨id, e⟩ := p
    intro c st m
    simp only [scanLoop]
    split
    · exact ih c st m
    · split
      · exact ih c st m
      · split
        · exact ih c st m
        · simp only [List.map_cons, List.length_cons, List.range'_succ]
          rw [ih]

/-- C1: for every `mapDOM` scan, the anchors carried by the emitted lines
are exactly the dense sequence `1, 2, ..., N` in document order, where `N`
is the number of mapped lines — the `k`-th emitted line carries anchor `k`,
with no gaps and no repeats within the scan. -/
theorem anchors_dense_sequential (d : Bool) (doc : List (Nat × ElemData)) (st : Store)
    (m : List Nat) :
    (mapDOM d doc st m).lines.map (fun l => l.1) =
      List.range' 1 (mapDOM d doc st m).lines.length :=
  scanLoop_anchors d doc 0 (clearStore st m) []

/- ──────────────────────────────────────────────────────────────
   C3 — re-scan cleanup is exhaustive
   ────────────────────────────────────────────────────────────── -/

/-- The registry invariant of `dom_observer.ts`: every node carrying a
`data-mcp-id` attribute or a non-empty scanner outline is registered in
`_mappedElements`.  It holds for the pristine document and is re-established
by every scan. -/
def StoreInv (st : Store) (m : List Nat) : Prop :=
  ∀ id, ((st id).mcpId ≠ none ∨ (st id).outline ≠ "") → id ∈ m

lemma clearStore_cons (st : Store) (a : Nat) (t : List Nat) :
    clearStore st (a :: t) =
      clearStore (updStore st a fun es => { es with mcpId := none, outline := "" }) t := rfl

lemma clearStore_preserve (m : List Nat) :
    ∀ (st : Store) (id : Nat), (st id).mcpId = none → (st id).outline = "" →
      ((clearStore st m) id).mcpId = none ∧ ((clearStore st m) id).outline = "" := by
  induction m with
  | nil =>
    intro st id h1 h2
    exact ⟨h1, h2⟩
  | cons a t ih =>
    intro st id h1 h2
    rw [clearStore_cons]
    by_cases h : id = a
    · subst h
      apply ih
      · simp [updStore]
      · simp [updStore]
    · apply ih
      · simpa [updStore, h] using h1
      · simpa [updStore, h] using h2

lemma clearStore_mem (m : List Nat) :
    ∀ (st : Store) (id : Nat), id ∈ m →
      ((clearStore st m) id).mcpId = none ∧ ((clearStore st m) id).outline = "" := by
  induction m with
  | nil =>
    intro st id h
    cases h
  | cons a t ih =>
    intro st id h
    rw [clearStore_cons]
    by_cases hid : id ∈ t
    · exact ih _ id hid
    · have ha : id = a := by
        rcases List.mem_cons.mp h with h' | h'
        · exact h'
        · exact absurd h' hid
      subst ha
      apply clearStore_preserve
      · simp [updStore]
      · simp [updStore]

lemma clearStore_not_mem (m : List Nat) :
    ∀ (st : Store) (id : Nat), id ∉ m → (clearStore st m) id = st id := by
  induction m with
  | nil =>
    intro st id _
    rfl
  | cons a t ih =>
    intro st id h
    have hna : id ≠ a := fun he => h (he ▸ List.mem_cons_self a t)
    have hnt : id ∉ t := fun ht => h (List.mem_cons_of_mem a ht)
    rw [clearStore_cons, ih _ id hnt]
    simp [updStore, hna]

/-- Under the registry invariant, `clearPreviousMapping` leaves *no* node
with an anchor attribute or scanner outline. -/
lemma clearStore_all (st : Store) (m : List Nat) (h : StoreInv st m) (id : Nat) :
    ((clearStore st m) id).mcpId = none ∧ ((clearStore st m) id).outline = "" := by
  by_cases hm : id ∈ m
  · exact clearStore_mem m st id hm
  · rw [clearStore_not_mem m st id hm]
    have h2 := mt (h id) hm
    push_neg at h2
    exact h2

/-- The scan loop re-establishes the registry invariant: every node it
decorates it also registers. -/
lemma scanLoop_inv (d : Bool) :
    ∀ (es : List (Nat × ElemData)) (c : Nat) (st : Store) (m : List Nat),
      StoreInv st m → StoreInv (scanLoop d es c st m).store (scanLoop d es c st m).mapped := by
  intro es
  induction es with
  | nil =>
    intro c st m h
    simpa [scanLoop] using h
  | cons p rest ih =>
    obtain ⟨id, e⟩ := p
    intro c st m h
    simp only [scanLoop]
    split
    · exact ih c st m h
    · split
      · exact ih c st m h
      · split
        · exact ih c st m h
        · apply ih
          intro j hj
          by_cases hji : j = id
          · subst hji
            simp
          · rw [show updStore st id (applyMapping d (c + 1)) j = st j by simp [updStore, hji]] at hj
            exact List.mem_append.mpr (Or.inl (h j hj))

/-- C3: starting from any state satisfying the registry invariant (as the
pristine page does), a `mapDOM` call re-establishes the invariant, and the
cleanup a subsequent `mapDOM` call performs first — `clearPreviousMapping`
over the registry the first call produced — leaves *no* node carrying an
anchor attribute or a diagnostic outline: at the moment the second scan
begins mapping, the cleanup has been exhaustive, so `mapDOM` is safely
re-callable any number of times. -/
theorem rescan_cleanup_exhaustive (d : Bool) (doc : List (Nat × ElemData)) (st : Store)
    (m : List Nat) (h : StoreInv st m) :
    StoreInv (mapDOM d doc st m).store (mapDOM d doc st m).mapped ∧
    ∀ id,
      ((clearStore (mapDOM d doc st m).store (mapDOM d doc st m).mapped) id).mcpId = none ∧
      ((clearStore (mapDOM d doc st m).store (mapDOM d doc st m).mapped) id).outline = "" := by
  have hinv0 : StoreInv (clearStore st m) [] := by
    intro id hid
    rcases hid with h1 | h1
    · exact absurd (clearStore_all st m h id).1 h1
    · exact absurd (clearStore_all st m h id).2 h1
  have hmain : StoreInv (mapDOM d doc st m).store (mapDOM d doc st m).mapped :=
    scanLoop_inv d doc 0 (clearStore st m) [] hinv0
  exact ⟨hmain, fun id => clearStore_all _ _ hmain id⟩

/-- A pristine store: no anchors, no inline styles. -/
def cleanStore : Store := fun _ => ElemState.clean

/-- A concrete visible heading element. -/
def demoElem : ElemData :=
  { tagName := "H1"
  , offsetParentNull := false
  , offsetWidth := 100
  , offsetHeight := 50
  , styleVisibility := "visible"
  , styleOpacity := "1"
  , chain := [["main"]]
  , childTextNodes := ["Juan Pérez"]
  , hrefAttr := none
  , ariaLabel := none
  , titleAttr := none }

/-- A concrete two-element document. -/
def demoDoc : List (Nat × ElemData) :=
  [(0, demoElem), (1, { demoElem with tagName := "P", childTextNodes := ["Developer"] })]

/-- C3 witness: after a concrete scan of a concrete page, the second scan's
cleanup leaves node 0 with no anchor and no outline. -/
theorem rescan_cleanup_exhaustive_witness :
    ((clearStore (mapDOM true demoDoc cleanStore []).store
        (mapDOM true demoDoc cleanStore []).mapped) 0).mcpId = none ∧
    ((clearStore (mapDOM true demoDoc cleanStore []).store
        (mapDOM true demoDoc cleanStore []).mapped) 0).outline = "" :=
  (rescan_cleanup_exhaustive true demoDoc cleanStore []
    (by
      intro id hid
      simp [cleanStore, ElemState.clean] at hid)).2 0

/- ──────────────────────────────────────────────────────────────
   C8 — response normalizer defaulting / clamping / source inference
   ────────────────────────────────────────────────────────────── -/

/-- A parsed response with a wrong-typed (numeric) `fullName` and the
valid-set member `"other"` as external `source`. -/
def c8parsed : JVal :=
  .jobj [("fullName", .jnum 42), ("source", .jstr "other")]

/-- C8 counterexample: a wrong-typed truthy field is *coerced*, not
defaulted — `fullName: 42` normalizes to `"42"`, not `""` — and an external
`source` value of `"other"`, although a member of the allowed set, is
*overridden* by URL inference (here to `"linkedin"`), so inference does not
happen exactly when the external value is absent or invalid. -/
theorem normalizer_counterexample :
    (normalizeProfile c8parsed "https://www.linkedin.com/in/x").map CandidateProfile.fullName =
      some "42" ∧
    ("42" : String) ≠ "" ∧
    (normalizeProfile c8parsed "https://www.linkedin.com/in/x").map CandidateProfile.source =
      some "linkedin" ∧
    ("linkedin" : String) ≠ "other" := by
  refine ⟨rfl, by decide, rfl, by decide⟩

/-- On a parsed object, `normalizeProfile` is the per-field coercion record
(definitional unfolding of the property reads and `Option` binds). -/
lemma normalizeProfile_obj (fs : List (String × JVal)) (url : String) :
    normalizeProfile (.jobj fs) url =
      (normEntries normExp ((fs.lookup "experience").getD JVal.jundefined)).bind fun exps =>
      (normEntries normEdu ((fs.lookup "education").getD JVal.jundefined)).bind fun edus =>
      some { fullName := jsToString (jsOr ((fs.lookup "fullName").getD .jundefined) (.jstr ""))
           , currentRole := jsToString (jsOr ((fs.lookup "currentRole").getD .jundefined) (.jstr ""))
           , location := jsToString (jsOr ((fs.lookup "location").getD .jundefined) (.jstr ""))
           , profileUrl := jsToString (jsOr ((fs.lookup "profileUrl").getD .jundefined)
               (jsOr (.jstr url) (.jstr "")))
           , source := inferSource ((fs.lookup "source").getD .jundefined) url
           , summary := jsToString (jsOr ((fs.lookup "summary").getD .jundefined) (.jstr ""))
           , email := jsToString (jsOr ((fs.lookup "email").getD .jundefined) (.jstr ""))
           , phone := jsToString (jsOr ((fs.lookup "phone").getD .jundefined) (.jstr ""))
           , skills := jsArrOfStrings ((fs.lookup "skills").getD .jundefined)
           , experience := exps
           , certifications := jsArrOfStrings ((fs.lookup "certifications").getD .jundefined)
           , education := edus
           , status := "new" } := rfl

/-- On a parsed object, `normalizeFit` is the per-field coercion record. -/
lemma normalizeFit_obj (fs : List (String × JVal)) :
    normalizeFit (.jobj fs) =
      some { score := max 0 (min 100 (jsNumberOr0 ((fs.lookup "score").getD .jundefined)))
           , verdict := jsToString (jsNullish ((fs.lookup "verdict").getD .jundefined) (.jstr ""))
           , matchingSkills := jsArrOfStrings ((fs.lookup "matchingSkills").getD .jundefined)
           , gaps := jsArrOfStrings ((fs.lookup "gaps").getD .jundefined)
           , strengths := jsArrOfStrings ((fs.lookup "strengths").getD .jundefined) } := rfl

lemma jsArrOfStrings_eq_nil (v : JVal) (h : isJArr v = false) : jsArrOfStrings v = [] := by
  cases v <;> simp_all [isJArr, jsArrOfStrings]

lemma inferSource_mem (v : JVal) (url : String) :
    inferSource v url = "linkedin" ∨ inferSource v url = "indeed" ∨
      inferSource v url = "other" := by
  unfold inferSource
  split_ifs <;> simp

/-- C8 (amended): for every parsed response object the normalizer returns a
fully-populated record — absent fields default to the empty string/array,
except `profileUrl`, whose absence falls back to the originating page URL
(so it is empty only when that URL is empty too); wrong-typed non-array
values for array fields default to the empty array (while wrong-typed
*truthy* values for string fields are coerced to their JS string form
rather than defaulted), the fit score is clamped into `[0, 100]` (absent
score → 0), `status` is always `"new"`, and the source field always lies in
the allowed set — taken from the external value exactly when that value is
`"linkedin"` or `"indeed"`, and otherwise inferred from the originating
page URL (so an external `"other"` is overridden by URL inference). -/
theorem normalizer_defaults_amended :
    (∀ (fs : List (String × JVal)) (url : String) (p : CandidateProfile),
      normalizeProfile (.jobj fs) url = some p →
      (fs.lookup "fullName" = none → p.fullName = "") ∧
      (fs.lookup "currentRole" = none → p.currentRole = "") ∧
      (fs.lookup "location" = none → p.location = "") ∧
      (fs.lookup "summary" = none → p.summary = "") ∧
      (fs.lookup "email" = none → p.email = "") ∧
      (fs.lookup "phone" = none → p.phone = "") ∧
      (fs.lookup "profileUrl" = none → p.profileUrl = url) ∧
      (isJArr ((fs.lookup "skills").getD .jundefined) = false → p.skills = []) ∧
      (isJArr ((fs.lookup "experience").getD .jundefined) = false → p.experience = []) ∧
      (isJArr ((fs.lookup "certifications").getD .jundefined) = false → p.certifications = []) ∧
      (isJArr ((fs.lookup "education").getD .jundefined) = false → p.education = []) ∧
      p.status = "new" ∧
      (p.source = "linkedin" ∨ p.source = "indeed" ∨ p.source = "other") ∧
      p.source = inferSource ((fs.lookup "source").getD .jundefined) url) ∧
    (∀ (fs : List (String × JVal)) (f : JobFitResult),
      normalizeFit (.jobj fs) = some f →
      0 ≤ f.score ∧ f.score ≤ 100 ∧
      (fs.lookup "score" = none → f.score = 0) ∧
      (fs.lookup "verdict" = none → f.verdict = "") ∧
      (isJArr ((fs.lookup "matchingSkills").getD .jundefined) = false → f.matchingSkills = []) ∧
      (isJArr ((fs.lookup "gaps").getD .jundefined) = false → f.gaps = []) ∧
      (isJArr ((fs.lookup "strengths").getD .jundefined) = false → f.strengths = [])) ∧
    (∀ (v : JVal) (url : String),
      isStrEq v "linkedin" = false → isStrEq v "indeed" = false →
      inferSource v url =
        (if strIncludes url "linkedin.com" then "linkedin"
         else if strIncludes url "indeed.com" then "indeed" else "other")) := by
  refine ⟨?_, ?_, ?_⟩
  · intro fs url p h
    rw [normalizeProfile_obj] at h
    simp only [Option.bind_eq_some, Option.some.injEq] at h
    obtain ⟨exps, hexps, edus, hedus, hp⟩ := h
    subst hp
    refine ⟨?_, ?_, ?_, ?_, ?_, ?_, ?_, ?_, ?_, ?_, ?_, rfl, ?_, rfl⟩
    · intro hl
      simp [hl, jsOr, jsTruthy, jsToString]
    · intro hl
      simp [hl, jsOr, jsTruthy, jsToString]
    · intro hl
      simp [hl, jsOr, jsTruthy, jsToString]
    · intro hl
      simp [hl, jsOr, jsTruthy, jsToString]
    · intro hl
      simp [hl, jsOr, jsTruthy, jsToString]
    · intro hl
      simp [hl, jsOr, jsTruthy, jsToString]
    · intro hl
      by_cases hu : url = ""
      · simp [hl, hu, jsOr, jsTruthy, jsToString]
      · simp [hl, hu, jsOr, jsTruthy, jsToString]
    · intro hl
      exact jsArrOfStrings_eq_nil _ hl
    · intro hl
      cases hv : (fs.lookup "experience").getD JVal.jundefined <;>
        rw [hv] at hexps hl <;> simp_all [isJArr, normEntries]
    · intro hl
      exact jsArrOfStrings_eq_nil _ hl
    · intro hl
      cases hv : (fs.lookup "education").getD JVal.jundefined <;>
        rw [hv] at hedus hl <;> simp_all [isJArr, normEntries]
    · exact inferSource_mem _ _
  · intro fs f h
    rw [normalizeFit_obj] at h
    simp only [Option.some.injEq] at h
    subst h
    refine ⟨le_max_left 0 _, max_le (by norm_num) (min_le_left 100 _), ?_, ?_, ?_, ?_, ?_⟩
    · intro hl
      simp [hl, jsNumberOr0, jsToNumber]
    · intro hl
      simp [hl, jsNullish, jsToString]
    · intro hl
      exact jsArrOfStrings_eq_nil _ hl
    · intro hl
      exact jsArrOfStrings_eq_nil _ hl
    · intro hl
      exact jsArrOfStrings_eq_nil _ hl
  · intro v url h1 h2
    simp [inferSource, h1, h2]

/-- The record the normalizer produces from an empty parsed object. -/
def c8emptyProfile : CandidateProfile :=
  { fullName := "", currentRole := "", location := "", profileUrl := "", source := "other"
  , summary := "", email := "", phone := "", skills := [], experience := []
  , certifications := [], education := [], status := "new" }

/-- C8 witness: concrete instantiation of the amended claim on the empty
parsed object. -/
theorem normalizer_defaults_amended_witness :
    c8emptyProfile.fullName = "" ∧
    c8emptyProfile.source =
      inferSource ((([] : List (String × JVal)).lookup "source").getD .jundefined) "" :=
  ⟨(normalizer_defaults_amended.1 [] "" c8emptyProfile rfl).1 rfl,
   (normalizer_defaults_amended.1 [] "" c8emptyProfile rfl).2.2.2.2.2.2.2.2.2.2.2.2.2⟩
